import Mathlib

/-!
Verification of the Project-GOS event pipeline against its specification.

The Python sources are shallowly embedded: Python real numbers become `ℚ`,
Python values whose runtime type matters are a tagged `PyVal`/`PyObj` type,
exceptions become `Except`, dictionaries become insertion-ordered association
lists, and the wall clock and the network are explicit parameters.
-/

set_option maxHeartbeats 1000000

/-! ## Python value model for the UPDC transform (`core/engines/updc.py`) -/

/-- A Python runtime value, restricted to the types relevant to
`updc_transform`'s `isinstance` validation: `int`, `float` and `str`. -/
inductive PyVal where
  | vInt (i : ℤ)
  | vFloat (q : ℚ)
  | vStr (s : String)
deriving DecidableEq, Repr

/-- Models `isinstance(v, numbers.Real)`: Python `int` and `float` are `Real`,
`str` is not. -/
def PyVal.isReal : PyVal → Bool
  | .vInt _ => true
  | .vFloat _ => true
  | .vStr _ => false

/-- Models `isinstance(v, int)`. -/
def PyVal.isInt : PyVal → Bool
  | .vInt _ => true
  | _ => false

/-- The numeric value of a `PyVal`; only meaningful after the `isReal`
validation has passed (a `str` never reaches an arithmetic position). -/
def PyVal.toRat : PyVal → ℚ
  | .vInt i => (i : ℚ)
  | .vFloat q => q
  | .vStr _ => 0

/-- Result dataclass `UPDCResult` of `core/engines/updc.py`. -/
structure UPDCResult where
  RT : ℚ
  Q : ℚ
  CI : ℚ
deriving DecidableEq, Repr

/-- The two exception classes `updc_transform` can raise. -/
inductive UPDCError where
  | typeError (msg : String)
  | valueError (msg : String)
deriving DecidableEq, Repr

/-- The function `updc_transform(I, S, M, W, n, R)` from `core/engines/updc.py`:
validates that `I,S,M,W,R` are real numbers (in that dict order), that `n`
is an integer, that `n` is positive and that `W + n` is non-zero, then
computes `RT = (I+S+M)/(W+n)`, `Q = R/n`, `CI = 0.5*(RT+Q)`. -/
def updc_transform (I S M W n R : PyVal) : Except UPDCError UPDCResult :=
  if ¬ I.isReal then .error (.typeError "I must be a real number")
  else if ¬ S.isReal then .error (.typeError "S must be a real number")
  else if ¬ M.isReal then .error (.typeError "M must be a real number")
  else if ¬ W.isReal then .error (.typeError "W must be a real number")
  else if ¬ R.isReal then .error (.typeError "R must be a real number")
  else if ¬ n.isInt then .error (.typeError "n must be an integer")
  else if n.toRat ≤ 0 then .error (.valueError "n must be a positive integer")
  else if W.toRat + n.toRat = 0 then
    .error (.valueError "W + n cannot be zero when computing RT")
  else
    let rt := (I.toRat + S.toRat + M.toRat) / (W.toRat + n.toRat)
    let q := R.toRat / n.toRat
    let ci := (1 / 2 : ℚ) * (rt + q)
    .ok ⟨rt, q, ci⟩

/-- C1: for real-valued `I,S,M,W,R` and a positive integer `n` with
`W + n ≠ 0`, `updc_transform` returns `RT = (I+S+M)/(W+n)`, `Q = R/n`,
`CI = 0.5*(RT+Q)`; as a pure function of its arguments it has no side
effects and is deterministic. -/
theorem updc_transform_c1_formula (I S M W R : PyVal) (n : ℤ)
    (hI : I.isReal = true) (hS : S.isReal = true) (hM : M.isReal = true)
    (hW : W.isReal = true) (hR : R.isReal = true)
    (hn : 0 < n) (hden : W.toRat + (n : ℚ) ≠ 0) :
    updc_transform I S M W (.vInt n) R =
      .ok ⟨(I.toRat + S.toRat + M.toRat) / (W.toRat + (n : ℚ)),
           R.toRat / (n : ℚ),
           (1 / 2 : ℚ) * ((I.toRat + S.toRat + M.toRat) / (W.toRat + (n : ℚ))
             + R.toRat / (n : ℚ))⟩ := by
  have hto : (PyVal.vInt n).toRat = (n : ℚ) := rfl
  have h1 : ¬ ((n : ℚ) ≤ 0) := by exact_mod_cast not_le.mpr hn
  simp [updc_transform, hI, hS, hM, hW, hR, PyVal.isInt, hto, h1, hden]

/-- C1 witness: `updc_transform(10, 5, 5, 2, 3, 9)` yields
`RT = 4`, `Q = 3`, `CI = 3.5`. -/
theorem updc_transform_c1_witness :
    updc_transform (.vInt 10) (.vInt 5) (.vInt 5) (.vInt 2) (.vInt 3) (.vInt 9)
      = .ok ⟨4, 3, 7 / 2⟩ := by
  have h := updc_transform_c1_formula (.vInt 10) (.vInt 5) (.vInt 5) (.vInt 2)
    (.vInt 9) 3 rfl rfl rfl rfl rfl (by norm_num)
    (by show ((2 : ℤ) : ℚ) + (3 : ℚ) ≠ 0; norm_num)
  rw [h]
  simp only [Except.ok.injEq, UPDCResult.mk.injEq, PyVal.toRat]
  norm_num

/-- C2: `updc_transform` raises a `TypeError` when one of `I,S,M,W,R` is not
a real number or `n` is not an integer; given real `I,S,M,W,R` and an
integer `n`, it raises a `ValueError` when `n ≤ 0` or `W + n = 0`; and with
all inputs valid it raises nothing and returns a result. -/
theorem updc_transform_c2_errors (I S M W n R : PyVal) :
    (¬ (I.isReal = true ∧ S.isReal = true ∧ M.isReal = true ∧ W.isReal = true
        ∧ R.isReal = true ∧ n.isInt = true) →
      ∃ m, updc_transform I S M W n R = .error (.typeError m))
  ∧ (∀ k : ℤ, I.isReal = true → S.isReal = true → M.isReal = true →
      W.isReal = true → R.isReal = true → n = .vInt k →
      (k ≤ 0 ∨ W.toRat + (k : ℚ) = 0) →
      ∃ m, updc_transform I S M W n R = .error (.valueError m))
  ∧ (∀ k : ℤ, I.isReal = true → S.isReal = true → M.isReal = true →
      W.isReal = true → R.isReal = true → n = .vInt k →
      0 < k → W.toRat + (k : ℚ) ≠ 0 →
      ∃ r, updc_transform I S M W n R = .ok r) := by
  refine ⟨?_, ?_, ?_⟩
  · intro h
    by_cases hI : I.isReal = true
    · by_cases hS : S.isReal = true
      · by_cases hM : M.isReal = true
        · by_cases hW : W.isReal = true
          · by_cases hR : R.isReal = true
            · by_cases hn : n.isInt = true
              · exact absurd ⟨hI, hS, hM, hW, hR, hn⟩ h
              · exact ⟨"n must be an integer",
                  by simp [updc_transform, hI, hS, hM, hW, hR, hn]⟩
            · exact ⟨"R must be a real number",
                by simp [updc_transform, hI, hS, hM, hW, hR]⟩
          · exact ⟨"W must be a real number",
              by simp [updc_transform, hI, hS, hM, hW]⟩
        · exact ⟨"M must be a real number", by simp [updc_transform, hI, hS, hM]⟩
      · exact ⟨"S must be a real number", by simp [updc_transform, hI, hS]⟩
    · exact ⟨"I must be a real number", by simp [updc_transform, hI]⟩
  · rintro k hI hS hM hW hR rfl hbad
    have hto : (PyVal.vInt k).toRat = (k : ℚ) := rfl
    by_cases hk0 : k ≤ 0
    · have hq : ((k : ℚ) ≤ 0) := by exact_mod_cast hk0
      exact ⟨"n must be a positive integer",
        by simp [updc_transform, hI, hS, hM, hW, hR, PyVal.isInt, hto, hq]⟩
    · have hW0 : W.toRat + (k : ℚ) = 0 := by
        rcases hbad with h | h
        · exact absurd h hk0
        · exact h
      have hq : ¬ ((k : ℚ) ≤ 0) := by
        intro h
        exact hk0 (by exact_mod_cast h)
      exact ⟨"W + n cannot be zero when computing RT",
        by simp [updc_transform, hI, hS, hM, hW, hR, PyVal.isInt, hto, hq, hW0]⟩
  · rintro k hI hS hM hW hR rfl hk hW0
    have hto : (PyVal.vInt k).toRat = (k : ℚ) := rfl
    have hq : ¬ ((k : ℚ) ≤ 0) := by
      have : (0 : ℚ) < (k : ℚ) := by exact_mod_cast hk
      exact not_le.mpr this
    refine ⟨⟨(I.toRat + S.toRat + M.toRat) / (W.toRat + (k : ℚ)),
             R.toRat / (k : ℚ),
             (1 / 2 : ℚ) * ((I.toRat + S.toRat + M.toRat) / (W.toRat + (k : ℚ))
               + R.toRat / (k : ℚ))⟩, ?_⟩
    simp [updc_transform, hI, hS, hM, hW, hR, PyVal.isInt, hto, hq, hW0]

/-- C2 witness: `n = 0` and `(W, n) = (-3, 3)` both raise a `ValueError`,
and a non-numeric first argument raises a `TypeError`. -/
theorem updc_transform_c2_witness :
    (∃ m, updc_transform (.vInt 1) (.vInt 1) (.vInt 1) (.vInt 1) (.vInt 0)
        (.vInt 1) = .error (.valueError m))
  ∧ (∃ m, updc_transform (.vInt 1) (.vInt 1) (.vInt 1) (.vInt (-3)) (.vInt 3)
        (.vInt 1) = .error (.valueError m))
  ∧ (∃ m, updc_transform (.vStr "a") (.vInt 1) (.vInt 1) (.vInt 1) (.vInt 1)
        (.vInt 1) = .error (.typeError m)) := by
  refine ⟨?_, ?_, ?_⟩
  · exact (updc_transform_c2_errors (.vInt 1) (.vInt 1) (.vInt 1) (.vInt 1)
      (.vInt 0) (.vInt 1)).2.1 0 rfl rfl rfl rfl rfl rfl (Or.inl le_rfl)
  · exact (updc_transform_c2_errors (.vInt 1) (.vInt 1) (.vInt 1) (.vInt (-3))
      (.vInt 3) (.vInt 1)).2.1 3 rfl rfl rfl rfl rfl rfl
      (Or.inr (by norm_num [PyVal.toRat]))
  · exact (updc_transform_c2_errors (.vStr "a") (.vInt 1) (.vInt 1) (.vInt 1)
      (.vInt 1) (.vInt 1)).1 (by simp [PyVal.isReal])

/-! ## Event model and the keyword mapper (`core/mappers/mapper.py`) -/

/-- A Python object as it can appear as a value of an event's `content`
dict: a string, an integer, or a (possibly nested) list. -/
inductive PyObj where
  | pstr (s : String)
  | pint (i : ℤ)
  | plist (xs : List PyObj)

mutual
/-- Python `repr` for the embedded object fragment (strings are quoted,
lists are bracketed with comma-separated element reprs). -/
def pyRepr : PyObj → String
  | .pstr s => "'" ++ s ++ "'"
  | .pint i => toString i
  | .plist xs => "[" ++ pyReprList xs ++ "]"

/-- Python `repr` of the elements of a list, joined by `", "`. -/
def pyReprList : List PyObj → String
  | [] => ""
  | [x] => pyRepr x
  | x :: y :: xs => pyRepr x ++ ", " ++ pyReprList (y :: xs)
end

/-- Python `str`: the identity on strings, `repr` on everything else in the
embedded fragment. -/
def pyStr : PyObj → String
  | .pstr s => s
  | v => pyRepr v

/-- Python `str.lower` (character-wise lowercasing). -/
def lowerStr (s : String) : String :=
  String.mk (s.toList.map Char.toLower)

/-- The `EventIn` pydantic model of `api/schemas.py`.  `content` and `feats`
are insertion-ordered association lists standing for Python dicts;
timestamps are kept as their ISO string form (only equality and string
order are ever used on them). -/
structure EventIn where
  event_id : String
  ts : String
  src : String
  actor_id : Option String := none
  content : List (String × PyObj)
  feats : List (String × PyObj) := []
  observed_ttp : List String := []
  incident_id : Option String := none
  campaign_id : Option String := none

/-- The table `KEYWORD_TTPS` from `core/mappers/mapper.py`, in dict insertion order. -/
def KEYWORD_TTPS : List (String × String) :=
  [("phish", "T1566"),
   ("malware", "T1204"),
   ("ransomware", "T1486"),
   ("sql injection", "T1190"),
   ("ddos", "T1498"),
   ("credential", "T1110"),
   ("lateral", "T1021"),
   ("exfiltration", "T1041")]

/-- The `text_parts` loop of `map_event_to_ttps`: string values are
lowercased, list values contribute `str(v).lower()` per element, all other
values are ignored. -/
def collectParts : List (String × PyObj) → List String
  | [] => []
  | (_, .pstr s) :: rest => lowerStr s :: collectParts rest
  | (_, .plist xs) :: rest =>
      xs.map (fun v => lowerStr (pyStr v)) ++ collectParts rest
  | (_, _) :: rest => collectParts rest

/-- The concatenation `full_text = " ".join(text_parts)`. -/
def fullText (evt : EventIn) : String :=
  String.intercalate " " (collectParts evt.content)

/-- Python's substring test `needle in hay` on character lists. -/
def containsSub : List Char → List Char → Bool
  | [], needle => needle.isPrefixOf []
  | c :: t, needle => needle.isPrefixOf (c :: t) || containsSub t needle

/-- Python's substring test `needle in hay` on strings. -/
def strContains (hay needle : String) : Bool :=
  containsSub hay.toList needle.toList

/-- Models `counter[key] += 1` on an insertion-ordered association list, the
behaviour of `collections.Counter` / a Python dict. -/
def incrCount (l : List (String × ℕ)) (key : String) : List (String × ℕ) :=
  match l with
  | [] => [(key, 1)]
  | (k, c) :: rest =>
      if k = key then (k, c + 1) :: rest else (k, c) :: incrCount rest key

/-- The `counts` Counter of `map_event_to_ttps` in `core/mappers/mapper.py`:
one occurrence of the keyword's TTP per keyword of `KEYWORD_TTPS` found in
the concatenated lowercased text. -/
def mapperCounts (evt : EventIn) : List (String × ℕ) :=
  KEYWORD_TTPS.foldl
    (fun acc kt =>
      if strContains (fullText evt) kt.1 then incrCount acc kt.2 else acc)
    []

/-- Round the positive rational `n / d` to the nearest binary64 value: 53
significant bits, ties to even.  The binade is located through the bit
length of the pre-scaled integer quotient `n * 2 ^ 64 / d` (`t` is the
floor base-2 logarithm of `n / d` plus `64`), the 52-fractional-bit
significand is an integer division, and its remainder decides the rounding
direction.  Overflow and subnormal handling are omitted: the magnitudes the
mapper produces (ratios in `[1/8, 1]`) are far from both ranges. -/
def flPos (n d : ℕ) : ℚ :=
  let t : ℕ := Nat.log2 (n * 2 ^ 64 / d)
  let N : ℕ := n * 2 ^ (116 - t)
  let D : ℕ := d * 2 ^ (t - 116)
  let mf : ℕ := N / D
  let r : ℕ := N % D
  let mr : ℕ :=
    if 2 * r < D then mf
    else if D < 2 * r then mf + 1
    else if mf % 2 = 0 then mf else mf + 1
  ((mr * 2 ^ (t - 116) : ℕ) : ℚ) / ((2 ^ (116 - t) : ℕ) : ℚ)

/-- Python's true division `v / total` of two non-negative ints: the exact
ratio rounded to the nearest binary64 double.  The zero guards are never
reached by the mapper (every count and every non-trivial total is
positive). -/
def floatDivNat (v t : ℕ) : ℚ :=
  if v = 0 ∨ t = 0 then 0 else flPos v t

/-- The return value of `map_event_to_ttps`: the matched TTP ids in
insertion order, and the counts divided by the total with binary64 float
division, as Python's `v / total` computes them (empty when the total count
is zero). -/
def map_event_to_ttps (evt : EventIn) :
    List String × List (String × ℚ) :=
  let counts := mapperCounts evt
  let observed := counts.map Prod.fst
  let total := (counts.map Prod.snd).sum
  let probs := if total = 0 then []
    else counts.map (fun kv => (kv.1, floatDivNat kv.2 total))
  (observed, probs)

/-- Substring containment is antitone in the needle: if `b` occurs in `hay`
and `a` is a prefix of `b`, then `a` occurs in `hay`. -/
theorem containsSub_mono (hay : List Char) {a b : List Char}
    (hab : a <+: b) (h : containsSub hay b = true) :
    containsSub hay a = true := by
  induction hay with
  | nil =>
    simp only [containsSub, List.isPrefixOf_iff_prefix] at h ⊢
    exact hab.trans h
  | cons c t ih =>
    simp only [containsSub, Bool.or_eq_true, List.isPrefixOf_iff_prefix] at h ⊢
    rcases h with h | h
    · exact Or.inl (hab.trans h)
    · exact Or.inr (ih h)

/-- Substring containment is antitone in the needle, stated on strings. -/
theorem strContains_mono (hay : String) {a b : String}
    (hab : a.toList <+: b.toList) (h : strContains hay b = true) :
    strContains hay a = true :=
  containsSub_mono hay.toList hab h

/-- C3: an event whose collected text contains `"phishing"` and no other
mapper keyword is mapped to `observed_ttp = ["T1566"]`,
`probs = {"T1566": 1.0}`; an event whose collected text matches no keyword
at all is mapped to `([], {})`. -/
theorem map_event_to_ttps_c3 (evt : EventIn) :
    (strContains (fullText evt) "phishing" = true →
     (∀ p ∈ KEYWORD_TTPS, p.1 ≠ "phish" →
        strContains (fullText evt) p.1 = false) →
     map_event_to_ttps evt = (["T1566"], [("T1566", 1)]))
  ∧ ((∀ p ∈ KEYWORD_TTPS, strContains (fullText evt) p.1 = false) →
     map_event_to_ttps evt = ([], [])) := by
  constructor
  · intro h1 h2
    have hp : strContains (fullText evt) "phish" = true :=
      strContains_mono _ (by decide) h1
    have hmal := h2 ("malware", "T1204") (by simp [KEYWORD_TTPS]) (by decide)
    have hran := h2 ("ransomware", "T1486") (by simp [KEYWORD_TTPS]) (by decide)
    have hsql := h2 ("sql injection", "T1190") (by simp [KEYWORD_TTPS]) (by decide)
    have hddos := h2 ("ddos", "T1498") (by simp [KEYWORD_TTPS]) (by decide)
    have hcred := h2 ("credential", "T1110") (by simp [KEYWORD_TTPS]) (by decide)
    have hlat := h2 ("lateral", "T1021") (by simp [KEYWORD_TTPS]) (by decide)
    have hexf := h2 ("exfiltration", "T1041") (by simp [KEYWORD_TTPS]) (by decide)
    have hc : mapperCounts evt = [("T1566", 1)] := by
      simp [mapperCounts, KEYWORD_TTPS, hp, hmal, hran, hsql, hddos, hcred,
            hlat, hexf, incrCount]
    have hfd : floatDivNat 1 1 = 1 := by norm_num [floatDivNat, flPos, Nat.log2]
    simp [map_event_to_ttps, hc, hfd]
  · intro h
    have hp := h ("phish", "T1566") (by simp [KEYWORD_TTPS])
    have hmal := h ("malware", "T1204") (by simp [KEYWORD_TTPS])
    have hran := h ("ransomware", "T1486") (by simp [KEYWORD_TTPS])
    have hsql := h ("sql injection", "T1190") (by simp [KEYWORD_TTPS])
    have hddos := h ("ddos", "T1498") (by simp [KEYWORD_TTPS])
    have hcred := h ("credential", "T1110") (by simp [KEYWORD_TTPS])
    have hlat := h ("lateral", "T1021") (by simp [KEYWORD_TTPS])
    have hexf := h ("exfiltration", "T1041") (by simp [KEYWORD_TTPS])
    have hc : mapperCounts evt = [] := by
      simp [mapperCounts, KEYWORD_TTPS, hp, hmal, hran, hsql, hddos, hcred,
            hlat, hexf]
    simp [map_event_to_ttps, hc]

/-- C3 witness: the event text `"User reported a phishing email"` maps to
`(["T1566"], {"T1566": 1.0})`, and `"Normal user activity"` maps to
`([], {})`. -/
theorem map_event_to_ttps_c3_witness :
    map_event_to_ttps
        { event_id := "evt", ts := "2024-01-01T00:00:00", src := "unit-test",
          content := [("text", .pstr "User reported a phishing email")] }
      = (["T1566"], [("T1566", 1)])
  ∧ map_event_to_ttps
        { event_id := "evt2", ts := "2024-01-01T00:00:00", src := "unit-test",
          content := [("text", .pstr "Normal user activity")] }
      = ([], []) := by
  constructor
  · exact (map_event_to_ttps_c3 _).1 (by decide) (by decide)
  · exact (map_event_to_ttps_c3 _).2 (by decide)

/-- Appending semantics of `incrCount` at a fresh key: when the key is not
yet present, the new entry is appended with count `1`. -/
theorem incrCount_of_forall_ne (acc : List (String × ℕ)) (key : String)
    (h : ∀ p ∈ acc, p.1 ≠ key) : incrCount acc key = acc ++ [(key, 1)] := by
  induction acc with
  | nil => rfl
  | cons a rest ih =>
    obtain ⟨k2, c⟩ := a
    have hk : k2 ≠ key := h (k2, c) (List.mem_cons_self _ _)
    simp only [incrCount, if_neg hk, List.cons_append]
    rw [ih (fun p hp => h p (List.mem_cons_of_mem _ hp))]

/-- The keyword-counting fold over a table with pairwise-distinct TTP ids:
each matched keyword appends its TTP with count exactly `1`, in table
order. -/
theorem mapperFold_eq (ft : String) (kts : List (String × String)) :
    ∀ acc : List (String × ℕ),
      (∀ kt ∈ kts, ∀ p ∈ acc, p.1 ≠ kt.2) →
      (kts.map Prod.snd).Nodup →
      kts.foldl
          (fun acc kt => if strContains ft kt.1 then incrCount acc kt.2 else acc)
          acc
        = acc ++ (kts.filter (fun kt => strContains ft kt.1)).map
            (fun kt => (kt.2, 1)) := by
  induction kts with
  | nil => intro acc _ _; simp
  | cons kt rest ih =>
    intro acc hdis hnd
    simp only [List.map_cons, List.nodup_cons] at hnd
    obtain ⟨hnotin, hnd2⟩ := hnd
    by_cases hm : strContains ft kt.1 = true
    · rw [List.foldl_cons, List.filter_cons]
      simp only [hm, if_true]
      rw [incrCount_of_forall_ne acc kt.2
        (fun p hp => hdis kt (List.mem_cons_self _ _) p hp)]
      have hdis2 : ∀ kt2 ∈ rest, ∀ p ∈ acc ++ [(kt.2, 1)], p.1 ≠ kt2.2 := by
        intro kt2 hkt2 p hp
        rcases List.mem_append.mp hp with hp | hp
        · exact hdis kt2 (List.mem_cons_of_mem _ hkt2) p hp
        · have hpe : p = (kt.2, 1) := by simpa using hp
          subst hpe
          intro hcontra
          apply hnotin
          have hc2 : kt.2 = kt2.2 := hcontra
          rw [hc2]
          exact List.mem_map_of_mem Prod.snd hkt2
      rw [ih (acc ++ [(kt.2, 1)]) hdis2 hnd2]
      simp
    · have hm2 : strContains ft kt.1 = false := by
        revert hm
        cases strContains ft kt.1 <;> simp
      rw [List.foldl_cons, List.filter_cons]
      simp only [hm2, Bool.false_eq_true, if_false]
      exact ih acc (fun kt2 h2 p hp => hdis kt2 (List.mem_cons_of_mem _ h2) p hp)
        hnd2

/-- The mapper Counter in closed form: the matched table entries, each with
count `1` (the eight TTP ids of `KEYWORD_TTPS` are pairwise distinct, so no
key is ever incremented twice). -/
theorem mapperCounts_eq (evt : EventIn) :
    mapperCounts evt
      = (KEYWORD_TTPS.filter (fun kt => strContains (fullText evt) kt.1)).map
          (fun kt => (kt.2, 1)) := by
  have h := mapperFold_eq (fullText evt) KEYWORD_TTPS []
    (fun kt _ p hp => absurd hp (List.not_mem_nil p)) (by decide)
  simpa [mapperCounts] using h

/-- Summing the constant `1` over a list gives its length. -/
theorem sum_map_one {α : Type} (l : List α) :
    (l.map (fun _ => (1 : ℕ))).sum = l.length := by
  induction l with
  | nil => rfl
  | cons a t ih => simp [ih, Nat.add_comm]

/-- Mapping a constant function is a `replicate`. -/
theorem map_const_eq_replicate {α β : Type} (l : List α) (c : β) :
    l.map (fun _ => c) = List.replicate l.length c := by
  induction l with
  | nil => rfl
  | cons a t ih => simp [ih, List.replicate_succ]

/-- Shape of a non-empty mapper result: `k` matched keywords (`1 ≤ k ≤ 8`)
produce `k` observed TTP ids and `k` probability values, each the binary64
rounding of `1 / k`. -/
theorem map_event_probs_structure (evt : EventIn)
    (h : (map_event_to_ttps evt).2 ≠ []) :
    ∃ k, 1 ≤ k ∧ k ≤ 8 ∧ (map_event_to_ttps evt).1.length = k
      ∧ (map_event_to_ttps evt).2.map Prod.snd
          = List.replicate k (floatDivNat 1 k) := by
  have hc := mapperCounts_eq evt
  set l := KEYWORD_TTPS.filter (fun kt => strContains (fullText evt) kt.1)
    with hl
  have htot : ((mapperCounts evt).map Prod.snd).sum = l.length := by
    rw [hc, List.map_map]
    exact sum_map_one l
  have hsnd : (map_event_to_ttps evt).2
      = if l.length = 0 then []
        else (l.map (fun kt => (kt.2, 1))).map
          (fun kv => (kv.1, floatDivNat kv.2 l.length)) := by
    dsimp only [map_event_to_ttps]
    rw [htot, hc]
  have hfst : (map_event_to_ttps evt).1
      = (l.map (fun kt => (kt.2, 1))).map Prod.fst := by
    dsimp only [map_event_to_ttps]
    rw [hc]
  have hlen0 : l.length ≠ 0 := by
    intro h0
    apply h
    rw [hsnd, if_pos h0]
  refine ⟨l.length, by omega, ?_, ?_, ?_⟩
  · have h8 : KEYWORD_TTPS.length = 8 := rfl
    have hle := List.length_filter_le
      (fun kt => strContains (fullText evt) kt.1) KEYWORD_TTPS
    rw [h8] at hle
    rw [hl]
    exact hle
  · rw [hfst]
    simp
  · rw [hsnd, if_neg hlen0, List.map_map, List.map_map]
    exact map_const_eq_replicate l (floatDivNat 1 l.length)

/-- C4 counterexample: the claim "the probability map, when non-empty, has
values summing to 1.0" fails on the code.  The reachable event text
`"phish malware ransomware ddos credential lateral"` matches six keywords;
each stored value is the binary64 rounding of `1/6` and the six values sum
to `18014398509481983/18014398509481984 ≠ 1`. -/
theorem map_event_to_ttps_c4_counterexample :
    (map_event_to_ttps
        { event_id := "evt", ts := "2024-01-01T00:00:00", src := "unit-test",
          content := [("text",
            .pstr "phish malware ransomware ddos credential lateral")] }).2 ≠ []
  ∧ (((map_event_to_ttps
        { event_id := "evt", ts := "2024-01-01T00:00:00", src := "unit-test",
          content := [("text",
            .pstr "phish malware ransomware ddos credential lateral")] }).2).map
      Prod.snd).sum ≠ 1 := by
  have hc : mapperCounts
      { event_id := "evt", ts := "2024-01-01T00:00:00", src := "unit-test",
        content := [("text",
          .pstr "phish malware ransomware ddos credential lateral")] }
      = [("T1566", 1), ("T1204", 1), ("T1486", 1), ("T1498", 1),
         ("T1110", 1), ("T1021", 1)] := by decide
  have hv6 : floatDivNat 1 6 = 6004799503160661 / 36028797018963968 := by
    norm_num [floatDivNat, flPos, Nat.log2]
  constructor
  · dsimp only [map_event_to_ttps]
    rw [hc]
    simp
  · dsimp only [map_event_to_ttps]
    rw [hc]
    norm_num [hv6]

/-- C4 amended: the probability map is normalized only up to binary64
rounding.  Whenever it is non-empty its `k` values (`k` = number of matched
keywords = length of `observed_ttp`, `1 ≤ k ≤ 8`) are each the double
nearest `1/k`; their sum differs from `1` by at most `2 ^ (-54)`, and
equals `1` exactly when `1/k` is representable, i.e. for
`k ∈ {1, 2, 4, 8}`. -/
theorem map_event_to_ttps_c4_approx (evt : EventIn)
    (h : (map_event_to_ttps evt).2 ≠ []) :
    |(((map_event_to_ttps evt).2).map Prod.snd).sum - 1| ≤ 1 / 2 ^ 54
  ∧ ((((map_event_to_ttps evt).2).map Prod.snd).sum = 1
      ↔ ((map_event_to_ttps evt).1.length = 1
         ∨ (map_event_to_ttps evt).1.length = 2
         ∨ (map_event_to_ttps evt).1.length = 4
         ∨ (map_event_to_ttps evt).1.length = 8)) := by
  have hv1 : floatDivNat 1 1 = 1 := by
    norm_num [floatDivNat, flPos, Nat.log2]
  have hv2 : floatDivNat 1 2 = 1 / 2 := by
    norm_num [floatDivNat, flPos, Nat.log2]
  have hv3 : floatDivNat 1 3 = 6004799503160661 / 18014398509481984 := by
    norm_num [floatDivNat, flPos, Nat.log2]
  have hv4 : floatDivNat 1 4 = 1 / 4 := by
    norm_num [floatDivNat, flPos, Nat.log2]
  have hv5 : floatDivNat 1 5 = 7205759403792794 / 36028797018963968 := by
    norm_num [floatDivNat, flPos, Nat.log2]
  have hv6 : floatDivNat 1 6 = 6004799503160661 / 36028797018963968 := by
    norm_num [floatDivNat, flPos, Nat.log2]
  have hv7 : floatDivNat 1 7 = 5146971002709138 / 36028797018963968 := by
    norm_num [floatDivNat, flPos, Nat.log2]
  have hv8 : floatDivNat 1 8 = 1 / 8 := by
    norm_num [floatDivNat, flPos, Nat.log2]
  obtain ⟨k, hk1, hk8, hobs, hrep⟩ := map_event_probs_structure evt h
  rw [hrep, hobs, List.sum_replicate]
  interval_cases k <;>
    norm_num [hv1, hv2, hv3, hv4, hv5, hv6, hv7, hv8, abs_sub_le_iff, abs_le]

/-- C4 witness: the two-keyword event (`ransomware`, `exfiltration`) has a
non-empty probability map whose two values sum to `1` (within the rounding
bound, and here exactly, having two observed TTPs). -/
theorem map_event_to_ttps_c4_approx_witness :
    |(((map_event_to_ttps
        { event_id := "evt", ts := "2024-01-01T00:00:00", src := "unit-test",
          content := [("text", .pstr "ransomware and exfiltration attempt")] }).2).map
        Prod.snd).sum - 1| ≤ 1 / 2 ^ 54
  ∧ ((((map_event_to_ttps
        { event_id := "evt", ts := "2024-01-01T00:00:00", src := "unit-test",
          content := [("text", .pstr "ransomware and exfiltration attempt")] }).2).map
        Prod.snd).sum = 1
      ↔ ((map_event_to_ttps
          { event_id := "evt", ts := "2024-01-01T00:00:00", src := "unit-test",
            content := [("text", .pstr "ransomware and exfiltration attempt")] }).1.length = 1
         ∨ (map_event_to_ttps
          { event_id := "evt", ts := "2024-01-01T00:00:00", src := "unit-test",
            content := [("text", .pstr "ransomware and exfiltration attempt")] }).1.length = 2
         ∨ (map_event_to_ttps
          { event_id := "evt", ts := "2024-01-01T00:00:00", src := "unit-test",
            content := [("text", .pstr "ransomware and exfiltration attempt")] }).1.length = 4
         ∨ (map_event_to_ttps
          { event_id := "evt", ts := "2024-01-01T00:00:00", src := "unit-test",
            content := [("text", .pstr "ransomware and exfiltration attempt")] }).1.length = 8)) :=
  map_event_to_ttps_c4_approx
    { event_id := "evt", ts := "2024-01-01T00:00:00", src := "unit-test",
      content := [("text", .pstr "ransomware and exfiltration attempt")] }
    (by decide)

/-! ## SPICE report builder (`core/spice/v22.py`) -/

/-- A row of the relational `event` table (`api/fastapi_app.py`). -/
structure EventRow where
  event_id : String
  ts : String
  src : Option String := none
  actor_id : Option String := none
  content : List (String × PyObj) := []
  feats : List (String × PyObj) := []
  observed_ttp : Option (List String) := none
  incident_id : Option String := none
  campaign_id : Option String := none

/-- Byte-wise string order `a ≤ b`, the comparison the store applies to the
ISO timestamp column against a window bound. -/
def strLeB (a b : String) : Bool :=
  a == b || decide (a < b)

/-- The scope filter of `build_spice_report_v22`: `event` filters on
`event_id`, `incident` on `incident_id`, `campaign` on `campaign_id`, any
other scope kind adds no filter. -/
def matchesScope (scope scope_id : String) (r : EventRow) : Bool :=
  if scope = "event" then r.event_id == scope_id
  else if scope = "incident" then r.incident_id == some scope_id
  else if scope = "campaign" then r.campaign_id == some scope_id
  else true

/-- The window filter of `build_spice_report_v22`: applied only when the
window is a two-element list, each bound only when it is non-empty
("falsy" strings are skipped); bounds are inclusive. -/
def matchesWindow (window : Option (List String)) (r : EventRow) : Bool :=
  match window with
  | some [s, e] => (s == "" || strLeB s r.ts) && (e == "" || strLeB r.ts e)
  | _ => true

/-- The full `WHERE` clause of the report query. -/
def rowSelected (scope scope_id : String) (window : Option (List String))
    (r : EventRow) : Bool :=
  matchesScope scope scope_id r && matchesWindow window r

/-- The projected result of
`select(event_id, ts, observed_ttp) ... fetchall()`, in store row order. -/
def selectRows (ds : List EventRow) (scope scope_id : String)
    (window : Option (List String)) :
    List (String × String × Option (List String)) :=
  (ds.filter (rowSelected scope scope_id window)).map
    (fun r => (r.event_id, r.ts, r.observed_ttp))

/-- The `ttp_counts` accumulation loop: per selected row, count each entry
of `observed_ttp or []`, keys in first-seen order. -/
def countTtps (rows : List (String × String × Option (List String))) :
    List (String × ℕ) :=
  rows.foldl (fun acc r => (r.2.2.getD []).foldl incrCount acc) []

/-- Stable insertion into a list sorted by count descending: the new
element goes after strictly larger counts and before equal ones, which is
exactly where Python's stable `sorted(..., reverse=True)` keeps an
originally-earlier element. -/
def insertDesc (x : String × ℕ) : List (String × ℕ) → List (String × ℕ)
  | [] => [x]
  | y :: ys => if x.2 < y.2 then y :: insertDesc x ys else x :: y :: ys

/-- Models `sorted(ttp_counts.items(), key=count, reverse=True)`: a stable sort by
count descending. -/
def sortDesc : List (String × ℕ) → List (String × ℕ)
  | [] => []
  | x :: xs => insertDesc x (sortDesc xs)

/-- The report dict returned by `build_spice_report_v22`; the `scores`
sub-dict is flattened into `event_count` and `distinct_ttps`. -/
structure SpiceReport where
  report_id : String
  version : String
  scope : String
  scope_id : String
  window : Option (List String)
  event_count : ℕ
  distinct_ttps : ℕ
  top_ttps : List String
  paths : List (String × String)
  blue_coas : List (String × String)
  generated_at : String
deriving DecidableEq, Repr

/-- The function `build_spice_report_v22` from `core/spice/v22.py`.  The two wall-clock
reads the Python code performs (`int(datetime.utcnow().timestamp())` inside
`report_id` and `datetime.utcnow().isoformat()` for `generated_at`) are the
explicit parameters `now_ts` and `now_iso`. -/
def build_spice_report_v22 (ds : List EventRow) (scope scope_id : String)
    (window : Option (List String)) (now_ts : ℤ) (now_iso : String) :
    SpiceReport :=
  let rows := selectRows ds scope scope_id window
  let ttp_counts := countTtps rows
  let top_ttp_ids := ((sortDesc ttp_counts).take 3).map Prod.fst
  { report_id := "sprt_" ++ scope ++ "_" ++ scope_id ++ "_" ++ toString now_ts,
    version := "2.2",
    scope := scope,
    scope_id := scope_id,
    window := window,
    event_count := rows.length,
    distinct_ttps := ttp_counts.length,
    top_ttps := top_ttp_ids,
    paths := [],
    blue_coas := top_ttp_ids.map (fun t => (t, "Investigate and mitigate " ++ t)),
    generated_at := now_iso }

/-- C5: over a dataset whose campaign scope selects exactly two events with
technique lists `["T1000"]` and `["T1000","T2000"]` (in either row order),
the windowless SPICE report has `event_count = 2`, `distinct_ttps = 2` and
`top_ttps = ["T1000", "T2000"]`. -/
theorem build_spice_report_v22_c5 (ds : List EventRow)
    (cid e1 e2 ts1 ts2 : String) (t : ℤ) (g : String)
    (h : selectRows ds "campaign" cid none
           = [(e1, ts1, some ["T1000"]), (e2, ts2, some ["T1000", "T2000"])]
       ∨ selectRows ds "campaign" cid none
           = [(e1, ts1, some ["T1000", "T2000"]), (e2, ts2, some ["T1000"])]) :
    (build_spice_report_v22 ds "campaign" cid none t g).event_count = 2
  ∧ (build_spice_report_v22 ds "campaign" cid none t g).distinct_ttps = 2
  ∧ (build_spice_report_v22 ds "campaign" cid none t g).top_ttps
      = ["T1000", "T2000"] := by
  rcases h with h | h <;>
    simp [build_spice_report_v22, h, countTtps, incrCount, sortDesc, insertDesc]

/-- C5 witness: a concrete two-event campaign fixture produces
`event_count = 2`, `distinct_ttps = 2`, `top_ttps = ["T1000", "T2000"]`. -/
theorem build_spice_report_v22_c5_witness :
    (build_spice_report_v22
        [{ event_id := "e1", ts := "2024-01-01T00:00:00",
           observed_ttp := some ["T1000"], campaign_id := some "camp1" },
         { event_id := "e2", ts := "2024-01-01T00:00:01",
           observed_ttp := some ["T1000", "T2000"],
           campaign_id := some "camp1" }]
        "campaign" "camp1" none 0 "2024-01-02T00:00:00").event_count = 2
  ∧ (build_spice_report_v22
        [{ event_id := "e1", ts := "2024-01-01T00:00:00",
           observed_ttp := some ["T1000"], campaign_id := some "camp1" },
         { event_id := "e2", ts := "2024-01-01T00:00:01",
           observed_ttp := some ["T1000", "T2000"],
           campaign_id := some "camp1" }]
        "campaign" "camp1" none 0 "2024-01-02T00:00:00").distinct_ttps = 2
  ∧ (build_spice_report_v22
        [{ event_id := "e1", ts := "2024-01-01T00:00:00",
           observed_ttp := some ["T1000"], campaign_id := some "camp1" },
         { event_id := "e2", ts := "2024-01-01T00:00:01",
           observed_ttp := some ["T1000", "T2000"],
           campaign_id := some "camp1" }]
        "campaign" "camp1" none 0 "2024-01-02T00:00:00").top_ttps
      = ["T1000", "T2000"] :=
  build_spice_report_v22_c5 _ "camp1" "e1" "e2"
    "2024-01-01T00:00:00" "2024-01-01T00:00:01" 0 "2024-01-02T00:00:00"
    (Or.inl (by decide))

/-- C6 counterexample: two calls against the same fixed dataset with
identical scope, scope identifier and window do not return identical
reports, because each call re-reads the wall clock and stores it in
`generated_at` (and in `report_id`): here the second call happens one
microsecond later and the reports differ. -/
theorem build_spice_report_v22_c6_counterexample :
    build_spice_report_v22
        [{ event_id := "e1", ts := "2024-01-01T00:00:00",
           observed_ttp := some ["T1000"], campaign_id := some "camp1" }]
        "campaign" "camp1" none 1704153600 "2024-01-02T00:00:00.000001"
  ≠ build_spice_report_v22
        [{ event_id := "e1", ts := "2024-01-01T00:00:00",
           observed_ttp := some ["T1000"], campaign_id := some "camp1" }]
        "campaign" "camp1" none 1704153600 "2024-01-02T00:00:00.000002" := by
  decide

/-- C6 amended: for a fixed dataset the report builder is deterministic in
everything except the two wall-clock fields: two calls with identical
scope, scope identifier and window agree on every report field other than
`report_id` and `generated_at`, whatever the clock reads. -/
theorem build_spice_report_v22_c6_stable (ds : List EventRow)
    (scope scope_id : String) (window : Option (List String))
    (t1 : ℤ) (g1 : String) (t2 : ℤ) (g2 : String) :
    (build_spice_report_v22 ds scope scope_id window t1 g1).version
      = (build_spice_report_v22 ds scope scope_id window t2 g2).version
  ∧ (build_spice_report_v22 ds scope scope_id window t1 g1).scope
      = (build_spice_report_v22 ds scope scope_id window t2 g2).scope
  ∧ (build_spice_report_v22 ds scope scope_id window t1 g1).scope_id
      = (build_spice_report_v22 ds scope scope_id window t2 g2).scope_id
  ∧ (build_spice_report_v22 ds scope scope_id window t1 g1).window
      = (build_spice_report_v22 ds scope scope_id window t2 g2).window
  ∧ (build_spice_report_v22 ds scope scope_id window t1 g1).event_count
      = (build_spice_report_v22 ds scope scope_id window t2 g2).event_count
  ∧ (build_spice_report_v22 ds scope scope_id window t1 g1).distinct_ttps
      = (build_spice_report_v22 ds scope scope_id window t2 g2).distinct_ttps
  ∧ (build_spice_report_v22 ds scope scope_id window t1 g1).top_ttps
      = (build_spice_report_v22 ds scope scope_id window t2 g2).top_ttps
  ∧ (build_spice_report_v22 ds scope scope_id window t1 g1).paths
      = (build_spice_report_v22 ds scope scope_id window t2 g2).paths
  ∧ (build_spice_report_v22 ds scope scope_id window t1 g1).blue_coas
      = (build_spice_report_v22 ds scope scope_id window t2 g2).blue_coas :=
  ⟨rfl, rfl, rfl, rfl, rfl, rfl, rfl, rfl, rfl⟩

/-- Two event rows that agree on every column except `content` and
`feats`. -/
def agreeExceptContentFeats (r1 r2 : EventRow) : Prop :=
  r1.event_id = r2.event_id ∧ r1.ts = r2.ts ∧ r1.src = r2.src
  ∧ r1.actor_id = r2.actor_id ∧ r1.observed_ttp = r2.observed_ttp
  ∧ r1.incident_id = r2.incident_id ∧ r1.campaign_id = r2.campaign_id

/-- The scope filter reads only `event_id`, `incident_id`, `campaign_id`. -/
theorem matchesScope_congr (scope scope_id : String) {r1 r2 : EventRow}
    (h1 : r1.event_id = r2.event_id) (h6 : r1.incident_id = r2.incident_id)
    (h7 : r1.campaign_id = r2.campaign_id) :
    matchesScope scope scope_id r1 = matchesScope scope scope_id r2 := by
  simp only [matchesScope, h1, h6, h7]

/-- The window filter reads only `ts`. -/
theorem matchesWindow_congr (window : Option (List String)) {r1 r2 : EventRow}
    (h2 : r1.ts = r2.ts) :
    matchesWindow window r1 = matchesWindow window r2 := by
  cases window with
  | none => rfl
  | some l =>
    match l with
    | [] => rfl
    | [_] => rfl
    | [s, e] => simp only [matchesWindow, h2]
    | _ :: _ :: _ :: _ => rfl

/-- The selected projection is invariant under changing only `content` and
`feats` of the rows. -/
theorem selectRows_congr (scope scope_id : String)
    (window : Option (List String)) {ds1 ds2 : List EventRow}
    (h : List.Forall₂ agreeExceptContentFeats ds1 ds2) :
    selectRows ds1 scope scope_id window
      = selectRows ds2 scope scope_id window := by
  induction h with
  | nil => rfl
  | @cons a b l1 l2 hab hrest ih =>
    obtain ⟨h1, h2, h3, h4, h5, h6, h7⟩ := hab
    have hsel : rowSelected scope scope_id window a
        = rowSelected scope scope_id window b := by
      unfold rowSelected
      rw [matchesScope_congr scope scope_id h1 h6 h7,
          matchesWindow_congr window h2]
    simp only [selectRows, List.filter_cons] at ih ⊢
    rw [hsel]
    by_cases hb : rowSelected scope scope_id window b = true
    · simp only [hb, if_true, List.map_cons]
      rw [h1, h2, h5, ih]
    · simp only [hb, if_false, Bool.false_eq_true]
      exact ih

/-- C9: the report depends only on the selected rows' `event_id`, `ts` and
`observed_ttp`: two datasets that agree row-for-row on every column except
`content` and `feats` produce reports with the same scores and the same
`top_ttps`, whatever each call's clock reads — the builder never re-derives
techniques from raw content. -/
theorem build_spice_report_v22_c9 (ds1 ds2 : List EventRow)
    (scope scope_id : String) (window : Option (List String))
    (t1 : ℤ) (g1 : String) (t2 : ℤ) (g2 : String)
    (h : List.Forall₂ agreeExceptContentFeats ds1 ds2) :
    (build_spice_report_v22 ds1 scope scope_id window t1 g1).event_count
      = (build_spice_report_v22 ds2 scope scope_id window t2 g2).event_count
  ∧ (build_spice_report_v22 ds1 scope scope_id window t1 g1).distinct_ttps
      = (build_spice_report_v22 ds2 scope scope_id window t2 g2).distinct_ttps
  ∧ (build_spice_report_v22 ds1 scope scope_id window t1 g1).top_ttps
      = (build_spice_report_v22 ds2 scope scope_id window t2 g2).top_ttps := by
  have hs := selectRows_congr scope scope_id window h
  simp [build_spice_report_v22, hs]

/-- C9 witness: changing an event's `content` and `feats` (here a phishing
text replaced by an unrelated one, plus new feats) leaves the report's
scores and `top_ttps` unchanged. -/
theorem build_spice_report_v22_c9_witness :
    (build_spice_report_v22
        [{ event_id := "e1", ts := "2024-01-01T00:00:00",
           content := [("text", .pstr "phishing wave")],
           observed_ttp := some ["T1566"], campaign_id := some "camp1" }]
        "campaign" "camp1" none 0 "g1").event_count
      = (build_spice_report_v22
        [{ event_id := "e1", ts := "2024-01-01T00:00:00",
           content := [("text", .pstr "quarterly newsletter")],
           feats := [("lang", .pstr "en")],
           observed_ttp := some ["T1566"], campaign_id := some "camp1" }]
        "campaign" "camp1" none 1 "g2").event_count
  ∧ (build_spice_report_v22
        [{ event_id := "e1", ts := "2024-01-01T00:00:00",
           content := [("text", .pstr "phishing wave")],
           observed_ttp := some ["T1566"], campaign_id := some "camp1" }]
        "campaign" "camp1" none 0 "g1").distinct_ttps
      = (build_spice_report_v22
        [{ event_id := "e1", ts := "2024-01-01T00:00:00",
           content := [("text", .pstr "quarterly newsletter")],
           feats := [("lang", .pstr "en")],
           observed_ttp := some ["T1566"], campaign_id := some "camp1" }]
        "campaign" "camp1" none 1 "g2").distinct_ttps
  ∧ (build_spice_report_v22
        [{ event_id := "e1", ts := "2024-01-01T00:00:00",
           content := [("text", .pstr "phishing wave")],
           observed_ttp := some ["T1566"], campaign_id := some "camp1" }]
        "campaign" "camp1" none 0 "g1").top_ttps
      = (build_spice_report_v22
        [{ event_id := "e1", ts := "2024-01-01T00:00:00",
           content := [("text", .pstr "quarterly newsletter")],
           feats := [("lang", .pstr "en")],
           observed_ttp := some ["T1566"], campaign_id := some "camp1" }]
        "campaign" "camp1" none 1 "g2").top_ttps :=
  build_spice_report_v22_c9 _ _ "campaign" "camp1" none 0 "g1" 1 "g2"
    (List.Forall₂.cons ⟨rfl, rfl, rfl, rfl, rfl, rfl, rfl⟩ List.Forall₂.nil)

/-! ## Normalizer (`pipeline/normalize/normalize.py`) -/

/-- Whitespace characters recognised by the regex class used in
`clean_text` (the ASCII range of Python's regex whitespace). -/
def isWs (c : Char) : Bool :=
  c = ' ' || c = '\t' || c = '\n' || c = '\r' || c = '\x0b' || c = '\x0c'

/-- Models `html.unescape`, restricted to the common named and numeric
character references (`&amp;` `&lt;` `&gt;` `&quot;`); other ampersands are
left untouched, as the Python function leaves unknown references. -/
def htmlUnescape : List Char → List Char
  | '&' :: 'a' :: 'm' :: 'p' :: ';' :: rest => '&' :: htmlUnescape rest
  | '&' :: 'l' :: 't' :: ';' :: rest => '<' :: htmlUnescape rest
  | '&' :: 'g' :: 't' :: ';' :: rest => '>' :: htmlUnescape rest
  | '&' :: 'q' :: 'u' :: 'o' :: 't' :: ';' :: rest => '"' :: htmlUnescape rest
  | c :: rest => c :: htmlUnescape rest
  | [] => []

/-- The tag-removal substitution `re.sub(r"<[^>]+>", "", text)` as a scan:
outside a tag (`none`) a `<` opens a candidate tag; inside (`some buf`,
`buf` holding the accumulated chars in reverse) a `>` closes it and the
candidate is dropped when non-empty (`<>` does not match the regex, and an
unclosed `<...` is emitted verbatim since no match can involve it). -/
def stripTagsAux : Option (List Char) → List Char → List Char
  | none, [] => []
  | none, '<' :: t => stripTagsAux (some []) t
  | none, c :: t => c :: stripTagsAux none t
  | some buf, [] => '<' :: buf.reverse
  | some buf, '>' :: t =>
      if buf.isEmpty then '<' :: '>' :: stripTagsAux none t
      else stripTagsAux none t
  | some buf, c :: t => stripTagsAux (some (c :: buf)) t

/-- The whitespace-collapse substitution `re.sub(r"\s+", " ", text)`: every
maximal whitespace run becomes a single space (`prevWs` records whether the
previous character was part of a run). -/
def collapseWsAux : Bool → List Char → List Char
  | _, [] => []
  | prevWs, c :: t =>
      if isWs c then
        if prevWs then collapseWsAux true t else ' ' :: collapseWsAux true t
      else c :: collapseWsAux false t

/-- Python `str.strip()`: drop leading and trailing whitespace. -/
def stripWs (cs : List Char) : List Char :=
  ((cs.dropWhile isWs).reverse.dropWhile isWs).reverse

/-- The function `clean_text` from `pipeline/normalize/normalize.py`: unescape HTML
entities, remove tags, collapse whitespace, strip. -/
def clean_text (s : String) : String :=
  String.mk (stripWs (collapseWsAux false (stripTagsAux none (htmlUnescape s.toList))))

/-- The list `EN_WORDS` from `pipeline/normalize/normalize.py`. -/
def EN_WORDS : List String := ["the", "and", "hello", "world"]

/-- The list `ES_WORDS` from `pipeline/normalize/normalize.py`. -/
def ES_WORDS : List String := ["hola", "mundo", "gracias", "que", "el"]

/-- The function `detect_language`: counts how many words of each fixed list occur as
substrings of the lowercased text (Python's `word in lowered`), and returns
`"es"` exactly when the Spanish score strictly exceeds the English one. -/
def detect_language (text : String) : String :=
  let lowered := lowerStr text
  let english_score := (EN_WORDS.filter (fun w => strContains lowered w)).length
  let spanish_score := (ES_WORDS.filter (fun w => strContains lowered w)).length
  if english_score < spanish_score then "es" else "en"

/-- The set `SUPPORTED_LANGUAGES` from `pipeline/normalize/normalize.py`. -/
def SUPPORTED_LANGUAGES : List String := ["en"]

/-- A Python `\w` word character (alphanumeric or underscore), restricted
to ASCII-relevant behaviour. -/
def isWordChar (c : Char) : Bool :=
  c.isAlphanum || c = '_'

/-- A character of the `[\w.-]` class of `EMAIL_RE`. -/
def isEmailChar (c : Char) : Bool :=
  isWordChar c || c = '.' || c = '-'

/-- A character that can belong to an e-mail candidate run. -/
def runChar (c : Char) : Bool :=
  isEmailChar c || c = '@'

/-- Whether a trimmed candidate run matches the shape of `EMAIL_RE`
(`[\w.-]+@[\w.-]+\.\w+`): a single `@` with a non-empty local part, and a
domain that ends in a dot followed by word characters with something before
the dot. -/
def emailShape (core : List Char) : Bool :=
  let a := core.takeWhile (fun c => c ≠ '@')
  let b := core.drop (a.length + 1)
  decide (a.length < core.length) && ¬ a.isEmpty && ¬ b.contains '@'
    && b.all isEmailChar
    && (let wrev := b.reverse.takeWhile isWordChar
        let beforeTld := b.reverse.drop wrev.length
        ¬ wrev.isEmpty && beforeTld.head? == some '.'
          && decide (beforeTld.length > 1))

/-- Applies `EMAIL_RE.sub("[EMAIL]", ·)` to one maximal run of e-mail
candidate characters: the word-boundary requirements of the regex keep any
leading/trailing non-word characters of the run outside the match. -/
def scrubEmailRun (run : List Char) : List Char :=
  let lead := run.takeWhile (fun c => ¬ isWordChar c)
  let rest := run.drop lead.length
  let trailRev := rest.reverse.takeWhile (fun c => ¬ isWordChar c)
  let core := (rest.reverse.drop trailRev.length).reverse
  if emailShape core then lead ++ "[EMAIL]".toList ++ trailRev.reverse
  else run

/-- Scan for `EMAIL_RE.sub`: accumulates each maximal run of candidate
characters (in reverse in `run`) and rewrites it through
`scrubEmailRun`. -/
def scrubEmailsAux : Option (List Char) → List Char → List Char
  | none, [] => []
  | none, c :: t =>
      if runChar c then scrubEmailsAux (some [c]) t
      else c :: scrubEmailsAux none t
  | some run, [] => scrubEmailRun run.reverse
  | some run, c :: t =>
      if runChar c then scrubEmailsAux (some (c :: run)) t
      else scrubEmailRun run.reverse ++ (c :: scrubEmailsAux none t)

/-- A separator of the `[-.\s]?` groups of `PHONE_RE`. -/
def isSep (c : Char) : Bool :=
  c = '-' || c = '.' || isWs c

/-- Consume exactly `n` digits, returning the remainder. -/
def digits : ℕ → List Char → Option (List Char)
  | 0, cs => some cs
  | _ + 1, [] => none
  | n + 1, c :: t => if c.isDigit then digits n t else none

/-- Consume one optional separator, returning how many characters were
consumed together with the remainder. -/
def popSep : List Char → ℕ × List Char
  | [] => (0, [])
  | c :: t => if isSep c then (1, t) else (0, c :: t)

/-- Try to match `PHONE_RE` (`\d{3}[-.\s]?\d{3}[-.\s]?\d{4}\b`) at the head
of `cs`; on success return the number of separator characters consumed
(the match length is `10 +` that number).  The trailing `\b` demands that
the next character, if any, is not a word character. -/
def matchPhoneExtra (cs : List Char) : Option ℕ :=
  match digits 3 cs with
  | none => none
  | some r1 =>
    let p1 := popSep r1
    match digits 3 p1.2 with
    | none => none
    | some r2 =>
      let p2 := popSep r2
      match digits 4 p2.2 with
      | none => none
      | some r3 =>
        match r3 with
        | [] => some (p1.1 + p2.1)
        | c :: _ => if isWordChar c then none else some (p1.1 + p2.1)

/-- Scan for `PHONE_RE.sub("[PHONE]", ·)`: a match may only start at a
digit preceded by a non-word character (the leading `\b`); after a match
the scan resumes just past it, with the last matched digit as the previous
character. -/
def scrubPhonesAux (prevIsWord : Bool) (cs : List Char) : List Char :=
  match cs with
  | [] => []
  | c :: t =>
    if ¬ prevIsWord && c.isDigit then
      match matchPhoneExtra (c :: t) with
      | some extra =>
          "[PHONE]".toList ++ scrubPhonesAux true ((c :: t).drop (10 + extra))
      | none => c :: scrubPhonesAux (isWordChar c) t
    else c :: scrubPhonesAux (isWordChar c) t
termination_by cs.length
decreasing_by
  all_goals simp [List.length_drop]

/-- The function `remove_pii` from `pipeline/normalize/normalize.py`: the e-mail
substitution followed by the phone substitution. -/
def remove_pii (s : String) : String :=
  String.mk (scrubPhonesAux false (scrubEmailsAux none s.toList))

/-- Locate the first occurrence of `http://` or `https://` in a token,
returning the part before it and the part from it on. -/
def splitAtHttp : List Char → Option (List Char × List Char)
  | [] => none
  | c :: t =>
      if "https://".toList.isPrefixOf (c :: t)
         || "http://".toList.isPrefixOf (c :: t) then some ([], c :: t)
      else (splitAtHttp t).map (fun pr => (c :: pr.1, pr.2))

/-- Rewrite one maximal non-whitespace token the way
`URL_RE.sub(_expand_url, ·)` does with `URL_RE = https?://\S+`: the match
starts at the first `http(s)://` of the token and extends to its end, and
requires at least one character after the scheme; `resolve` stands for
`_expand_url` (redirect resolution, returning its argument on any network
failure). -/
def flushToken (resolve : String → String) (tok : List Char) : List Char :=
  match splitAtHttp tok with
  | some (pre, url) =>
      if ("https://".toList.isPrefixOf url && decide (url.length > 8))
         || ("http://".toList.isPrefixOf url && decide (url.length > 7)) then
        pre ++ (resolve (String.mk url)).toList
      else tok
  | none => tok

/-- Scan for `expand_urls`: accumulates the current non-whitespace token
(in reverse) and flushes it at each whitespace character and at the end. -/
def expandUrlsAux (resolve : String → String) : List Char → List Char → List Char
  | tok, [] => flushToken resolve tok.reverse
  | tok, c :: t =>
      if isWs c then
        flushToken resolve tok.reverse ++ (c :: expandUrlsAux resolve [] t)
      else expandUrlsAux resolve (c :: tok) t

/-- The function `expand_urls` from `pipeline/normalize/normalize.py`, parameterised by
the redirect resolver. -/
def expand_urls (resolve : String → String) (s : String) : String :=
  String.mk (expandUrlsAux resolve [] s.toList)


/-- Python `dict.get(k)` on an insertion-ordered association list. -/
def dictGet (d : List (String × PyObj)) (k : String) : Option PyObj :=
  (d.find? (fun p => p.1 == k)).map Prod.snd

/-- Python `d[k] = v` on an insertion-ordered association list: an existing
key keeps its position, a new key is appended. -/
def dictSet (d : List (String × PyObj)) (k : String) (v : PyObj) :
    List (String × PyObj) :=
  match d with
  | [] => [(k, v)]
  | (k2, v2) :: rest =>
      if k2 == k then (k2, v) :: rest else (k2, v2) :: dictSet rest k v

/-- The exceptions the `normalize` pipeline stage can raise: the
unsupported-language `ValueError`, or the `TypeError` Python produces when
`content["text"]` is present but not a string (it reaches `clean_text`,
which only accepts strings). -/
inductive NormError where
  | unsupportedLanguage (lang : String)
  | typeErr

namespace Norm

/-- The body of `normalize` once the `content["text"]` string `s` has been
extracted: clean, detect the language, reject unsupported languages, scrub
PII, expand URLs, and return the updated copy with `feats["lang"]` set. -/
def normalizeText (resolve : String → String) (event : EventIn) (s : String) :
    Except NormError EventIn :=
  let text := clean_text s
  let lang := detect_language text
  if lang ∈ SUPPORTED_LANGUAGES then
    let text2 := remove_pii text
    let text3 := expand_urls resolve text2
    .ok { event with
          content := dictSet event.content "text" (.pstr text3),
          feats := dictSet event.feats "lang" (.pstr lang) }
  else .error (.unsupportedLanguage lang)

/-- The function `normalize` from `pipeline/normalize/normalize.py`, with the network
redirect resolver of `_expand_url` as the explicit parameter `resolve`.
`content.get("text", "")` yields the empty string when the key is missing;
a non-string value would make the Python code raise a `TypeError` inside
`clean_text`. -/
def normalize (resolve : String → String) (event : EventIn) :
    Except NormError EventIn :=
  match dictGet event.content "text" with
  | some (.pstr s) => normalizeText resolve event s
  | none => normalizeText resolve event ""
  | some _ => .error .typeErr

end Norm

/-- Setting a key then reading it back returns the new value. -/
theorem dictGet_dictSet (d : List (String × PyObj)) (k : String) (v : PyObj) :
    dictGet (dictSet d k v) k = some v := by
  induction d with
  | nil => simp [dictGet, dictSet]
  | cons a rest ih =>
    obtain ⟨k2, v2⟩ := a
    by_cases hk : k2 = k
    · simp [dictGet, dictSet, hk]
    · have hk2 : (k2 == k) = false := beq_eq_false_iff_ne.mpr hk
      show dictGet
        (if k2 == k then (k2, v) :: rest else (k2, v2) :: dictSet rest k v) k
        = some v
      rw [hk2]
      simp only [Bool.false_eq_true, if_false]
      unfold dictGet
      rw [List.find?_cons_of_neg _ (by simp [hk2])]
      exact ih

/-- C7: when the event's `content["text"]` is the string `s` (or is absent,
in which case `s = ""`), `normalize` raises the unsupported-language
`ValueError` exactly when the word-overlap detector classifies the cleaned
text outside `SUPPORTED_LANGUAGES` (English-only by default); otherwise it
succeeds, the detected language is `"en"`, and the returned event carries
`feats["lang"] = "en"`. -/
theorem normalize_c7 (resolve : String → String) (evt : EventIn) (s : String)
    (h : dictGet evt.content "text" = some (.pstr s)
       ∨ (dictGet evt.content "text" = none ∧ s = "")) :
    (detect_language (clean_text s) ∉ SUPPORTED_LANGUAGES →
      Norm.normalize resolve evt
        = .error (.unsupportedLanguage (detect_language (clean_text s))))
  ∧ (detect_language (clean_text s) ∈ SUPPORTED_LANGUAGES →
      detect_language (clean_text s) = "en"
      ∧ ∃ e2, Norm.normalize resolve evt = .ok e2
          ∧ dictGet e2.feats "lang" = some (.pstr "en")) := by
  have key : Norm.normalize resolve evt = Norm.normalizeText resolve evt s := by
    rcases h with h | ⟨h, rfl⟩ <;> simp [Norm.normalize, h]
  constructor
  · intro hlang
    rw [key]
    simp only [Norm.normalizeText]
    rw [if_neg hlang]
  · intro hlang
    have hl : detect_language (clean_text s) = "en" := by
      simpa [SUPPORTED_LANGUAGES] using hlang
    refine ⟨hl, { evt with
        content := dictSet evt.content "text"
          (.pstr (expand_urls resolve (remove_pii (clean_text s)))),
        feats := dictSet evt.feats "lang"
          (.pstr (detect_language (clean_text s))) }, ?_, ?_⟩
    · rw [key]
      simp only [Norm.normalizeText]
      rw [if_pos hlang]
    · rw [dictGet_dictSet, hl]

/-- C7 witness: Spanish-keyword-dominant text (`"hola mundo gracias"`) is
rejected as unsupported, while English text (`"hello world"`) is accepted
and tagged `feats["lang"] = "en"`. -/
theorem normalize_c7_witness :
    Norm.normalize id
        { event_id := "2", ts := "2024-01-01T00:00:00", src := "unit-test",
          content := [("text", .pstr "hola mundo gracias")] }
      = .error (.unsupportedLanguage "es")
  ∧ ∃ e2, Norm.normalize id
        { event_id := "1", ts := "2024-01-01T00:00:00", src := "unit-test",
          content := [("text", .pstr "hello world")] }
      = .ok e2 ∧ dictGet e2.feats "lang" = some (.pstr "en") := by
  constructor
  · have h := (normalize_c7 id
      { event_id := "2", ts := "2024-01-01T00:00:00", src := "unit-test",
        content := [("text", .pstr "hola mundo gracias")] }
      "hola mundo gracias" (Or.inl rfl)).1 (by decide)
    have hdet : detect_language (clean_text "hola mundo gracias") = "es" := by
      decide
    rw [hdet] at h
    exact h
  · obtain ⟨-, e2, he, hf⟩ := (normalize_c7 id
      { event_id := "1", ts := "2024-01-01T00:00:00", src := "unit-test",
        content := [("text", .pstr "hello world")] }
      "hello world" (Or.inl rfl)).2 (by decide)
    exact ⟨e2, he, hf⟩

/-! ## Graph writer entry point (`pipeline/graph/neo4j_client.py`) -/

/-- The function `upsert_event` from `pipeline/graph/neo4j_client.py`, with the three
fallible dependency calls as explicit outcomes: `create` stands for
`Neo4jClient(uri, user, password, database)` (driver creation plus
constraint setup), `write` for `client.write_event(EventIn(**event))`
(including the `EventIn` validation), and `close` for `client.close()`.
Each Python `try/except` block catching and logging an exception becomes a
`match` producing a log message; the `Except.error` result — an exception
propagating to the caller — is never produced. -/
def upsert_event {Client : Type} (create : Except String Client)
    (write : Client → Except String Unit)
    (close : Client → Except String Unit) : Except String (List String) :=
  match create with
  | .error _ => .ok ["Neo4j client unavailable"]
  | .ok client =>
      let writeLog :=
        match write client with
        | .error _ => ["Neo4j write failed"]
        | .ok _ => []
      let closeLog :=
        match close client with
        | .error _ => ["Failed to close Neo4j client"]
        | .ok _ => []
      .ok (writeLog ++ closeLog)

/-- C8: whatever the outcomes of client creation, event write and client
close, `upsert_event` returns normally (with its warnings logged) — no
graph-store failure ever propagates to the caller. -/
theorem upsert_event_c8_never_raises {Client : Type}
    (create : Except String Client)
    (write : Client → Except String Unit)
    (close : Client → Except String Unit) :
    ∃ logs, upsert_event create write close = .ok logs := by
  cases create with
  | error e => exact ⟨["Neo4j client unavailable"], rfl⟩
  | ok client =>
    cases hw : write client <;> cases hc : close client
    · exact ⟨["Neo4j write failed", "Failed to close Neo4j client"],
        by simp [upsert_event, hw, hc]⟩
    · exact ⟨["Neo4j write failed"], by simp [upsert_event, hw, hc]⟩
    · exact ⟨["Failed to close Neo4j client"], by simp [upsert_event, hw, hc]⟩
    · exact ⟨[], by simp [upsert_event, hw, hc]⟩

/-! ## The `/map/ttp` route (`api/fastapi_app.py`) -/

/-- Request body of `POST /map/ttp` (`api/schemas.py`). -/
structure MapTTPRequest where
  event : EventIn

/-- Response body of `POST /map/ttp` (`api/schemas.py`). -/
structure MapTTPResponse where
  observed_ttp : List String
  probs : List (String × ℚ)
deriving DecidableEq, Repr

/-- The `get_api_key` dependency (`X-API-Key` header check): any value
other than `"dev-key"` is rejected with HTTP 401. -/
def get_api_key (key : Option String) : Except ℕ String :=
  if key = some "dev-key" then .ok "dev-key" else .error 401

/-- The `map_ttp` handler of `api/fastapi_app.py`: it returns a constant
empty response and makes no reference to `map_event_to_ttps` (the real
mapper is left as a TODO in the source). -/
def map_ttp (_req : MapTTPRequest) : MapTTPResponse :=
  { observed_ttp := [], probs := [] }

/-- The route `POST /map/ttp`: the auth dependency runs first, then the
handler. -/
def map_ttp_route (key : Option String) (req : MapTTPRequest) :
    Except ℕ MapTTPResponse :=
  match get_api_key key with
  | .error code => .error code
  | .ok _ => .ok (map_ttp req)

/-- C10: every authenticated `POST /map/ttp` request yields
`observed_ttp = []` and `probs = {}`, regardless of the event in the
request body — the handler is a constant function, independent of the
keyword mapper `map_event_to_ttps`. -/
theorem map_ttp_c10 (key : Option String) (req : MapTTPRequest)
    (h : ∃ k, get_api_key key = .ok k) :
    map_ttp_route key req = .ok { observed_ttp := [], probs := [] }
  ∧ map_ttp req = { observed_ttp := [], probs := [] } := by
  obtain ⟨k, hk⟩ := h
  exact ⟨by simp [map_ttp_route, hk, map_ttp], rfl⟩

/-- C10 witness: with the valid API key and a request whose event text the
keyword mapper would map to `T1566`, the route still answers
`([], {})`. -/
theorem map_ttp_c10_witness :
    map_ttp_route (some "dev-key")
        { event := { event_id := "evt", ts := "2024-01-01T00:00:00",
                     src := "unit-test",
                     content := [("text", .pstr "phishing attempt")] } }
      = .ok { observed_ttp := [], probs := [] } :=
  (map_ttp_c10 (some "dev-key")
      { event := { event_id := "evt", ts := "2024-01-01T00:00:00",
                   src := "unit-test",
                   content := [("text", .pstr "phishing attempt")] } }
      ⟨"dev-key", rfl⟩).1
